import Mathlib

/-!
Verification of `scripts/generate_profile_stats.py`.

The script fetches a GitHub user's repositories, aggregates star counts and
per-language byte counts over non-fork repositories, and renders two SVG
cards.  This file gives a shallow embedding of the script's pure core:
JSON values, Python truthiness and `int()` coercion, the `api_get` error
handling, the aggregation loop of `main`, the ISO-8601 parser, and both
SVG renderers.  Python's float expressions (`(size / total) * 280` and the
`:.1f` percentage) are modelled over exact rational/integer arithmetic;
Python `//` is `Int.fdiv` (floor) and `int()` truncation is `Int.tdiv`.
-/

/-- JSON values as produced by `json.loads`.  Object keys are strings and
object/array order is the iteration order of the Python containers. -/
inductive JVal where
  | jnull : JVal
  | jbool (b : Bool) : JVal
  | jint (n : Int) : JVal
  | jstr (s : String) : JVal
  | jarr (elems : List JVal) : JVal
  | jobj (fields : List (String × JVal)) : JVal

/-- A JSON object (Python dict) as an insertion-ordered association list. -/
abbrev Obj := List (String × JVal)

/-- First-match lookup in a dict; `json.loads` gives unique keys. -/
def lookup? : Obj → String → Option JVal
  | [], _ => none
  | (k', v) :: rest, k => if k' = k then some v else lookup? rest k

/-- Python `d.get(key, default)`. -/
def pyGetD (o : Obj) (k : String) (d : JVal) : JVal := (lookup? o k).getD d

/-- Python `d.get(key)`, returning `None` when the key is absent. -/
def pyGet (o : Obj) (k : String) : JVal := pyGetD o k .jnull

/-- Python truthiness of a JSON value. -/
def pyTruthy : JVal → Bool
  | .jnull => false
  | .jbool b => b
  | .jint n => n != 0
  | .jstr s => s != ""
  | .jarr elems => !elems.isEmpty
  | .jobj fields => !fields.isEmpty

/-- Python `a or b`. -/
def pyOr (a b : JVal) : JVal := if pyTruthy a then a else b

/-- Python exceptions that escape the modelled fragment. -/
inductive PyError where
  | runtimeError (msg : String)
  | urlError (cause : String)
  | typeError (msg : String)
  | valueError (msg : String)
deriving DecidableEq

/-- Discriminates the error classes a caller can observe. -/
def PyError.kindIndex : PyError → Nat
  | .runtimeError _ => 0
  | .urlError _ => 1
  | .typeError _ => 2
  | .valueError _ => 3

/-- Python `int(s)` on a string: optional surrounding whitespace, an optional
sign, then at least one decimal digit. -/
def pyStrToInt? (s : String) : Option Int :=
  let digitsVal : List Char → Option Nat := fun l =>
    if l.isEmpty then none
    else if l.all Char.isDigit then
      some (l.foldl (fun a c => 10 * a + (c.toNat - 48)) 0)
    else none
  match (s.trim).data with
  | '-' :: rest => (digitsVal rest).map (fun n => -(n : Int))
  | '+' :: rest => (digitsVal rest).map (fun n => (n : Int))
  | l => (digitsVal l).map (fun n => (n : Int))

/-- Python `int(v)` on a JSON value; `bool` is an `int` subclass in Python,
so `int(True) = 1`; `None`, lists and dicts raise `TypeError`, and
non-numeric strings raise `ValueError`. -/
def pyIntE : JVal → Except PyError Int
  | .jint n => .ok n
  | .jbool b => .ok (cond b 1 0)
  | .jstr s =>
    match pyStrToInt? s with
    | some n => .ok n
    | none => .error (.valueError s)
  | .jnull => .error (.typeError "NoneType")
  | .jarr _ => .error (.typeError "list")
  | .jobj _ => .error (.typeError "dict")

/-- The outcome of one HTTP request as seen by `urllib.request.urlopen`:
a 2xx response with a parsed JSON body, a non-2xx response
(`urllib.error.HTTPError`), or a transport-level failure such as a
timeout, DNS failure or connection reset. -/
inductive Transport where
  | ok (body : JVal)
  | httpError (code : Nat) (body : String)
  | failure (cause : String)

/-- `api_get(url, token)`: returns the parsed JSON body; an
`urllib.error.HTTPError` (non-2xx status) is re-raised as
`RuntimeError(f"GitHub API error {code} for {url}: {body}")`; any other
exception -- in particular transport failures -- propagates unchanged. -/
def api_get (net : String → Transport) (url : String) : Except PyError JVal :=
  match net url with
  | .ok body => .ok body
  | .httpError code body =>
    .error (.runtimeError ("GitHub API error " ++ toString code ++ " for " ++ url ++ ": " ++ body))
  | .failure cause => .error (.urlError cause)

/-- `language_totals[name] += size` on a `defaultdict(int)`: an existing key
is updated in place, a new key is appended in insertion order. -/
def updateAssoc : List (String × Int) → String → Int → List (String × Int)
  | [], k, v => [(k, v)]
  | (k', v') :: rest, k, v =>
    if k' = k then (k', v' + v) :: rest else (k', v') :: updateAssoc rest k v

/-- `isinstance(size, int)` for a JSON value (`bool` is an `int` subclass). -/
def isIntSize : JVal → Bool
  | .jint _ => true
  | .jbool _ => true
  | _ => false

/-- The inner loop `for name, size in payload.items(): ...` of `main`:
keys of a JSON object are always strings, so `isinstance(name, str)` holds;
entries whose value is not an `int` (with `True`/`False` counting as
`1`/`0`) are skipped. -/
def addLangs (totals : List (String × Int)) : List (String × JVal) → List (String × Int)
  | [] => totals
  | (name, size) :: rest =>
    match size with
    | .jint n => addLangs (updateAssoc totals name n) rest
    | .jbool b => addLangs (updateAssoc totals name (cond b 1 0)) rest
    | _ => addLangs totals rest

/-- The language fetch of one repository in `main`: if `languages_url` is a
non-empty string, `api_get` it; a JSON-object payload yields its fields,
any other payload shape is ignored. -/
def langFetch (net : String → Transport) (repo : Obj) :
    Except PyError (Option (List (String × JVal))) :=
  match pyGet repo "languages_url" with
  | .jstr url =>
    if url = "" then .ok none
    else
      match api_get net url with
      | .error e => .error e
      | .ok (.jobj fields) => .ok (some fields)
      | .ok _ => .ok none
  | _ => .ok none

/-- One iteration of the aggregation loop in `main` over the accumulator
`(repo_count, total_stars, language_totals)`. -/
def aggStep (net : String → Transport) (acc : Nat × Int × List (String × Int))
    (repo : Obj) : Except PyError (Nat × Int × List (String × Int)) :=
  if pyTruthy (pyGet repo "fork") then .ok acc
  else
    match pyIntE (pyOr (pyGetD repo "stargazers_count" (.jint 0)) (.jint 0)) with
    | .error e => .error e
    | .ok s =>
      match langFetch net repo with
      | .error e => .error e
      | .ok none => .ok (acc.1 + 1, acc.2.1 + s, acc.2.2)
      | .ok (some fields) => .ok (acc.1 + 1, acc.2.1 + s, addLangs acc.2.2 fields)

/-- The aggregation loop of `main` over the repositories yielded by
`iter_owned_repos` (all of which are dicts). -/
def aggregate (net : String → Transport) :
    List Obj → Nat × Int × List (String × Int) →
    Except PyError (Nat × Int × List (String × Int))
  | [], acc => .ok acc
  | r :: rs, acc =>
    match aggStep net acc r with
    | .error e => .error e
    | .ok acc2 => aggregate net rs acc2

instance {ε α : Type} [DecidableEq ε] [DecidableEq α] : DecidableEq (Except ε α) := fun a b =>
  match a, b with
  | .ok x, .ok y => if h : x = y then .isTrue (by rw [h]) else .isFalse (by simp [h])
  | .error x, .error y => if h : x = y then .isTrue (by rw [h]) else .isFalse (by simp [h])
  | .ok _, .error _ => .isFalse (by simp)
  | .error _, .ok _ => .isFalse (by simp)

/-- The star contribution of one repository:
`int(repo.get("stargazers_count", 0) or 0)`, read as `0` on the error
branch (which aborts the run, so it never reaches the total). -/
def starOf (repo : Obj) : Int :=
  match pyIntE (pyOr (pyGetD repo "stargazers_count" (.jint 0)) (.jint 0)) with
  | .ok s => s
  | .error _ => 0

/-- `not repo.get("fork")`: the repository is kept by the aggregation. -/
def nonFork (repo : Obj) : Bool := !pyTruthy (pyGet repo "fork")

/-- A naive UTC datetime, as built by
`datetime.strptime(value, "%Y-%m-%dT%H:%M:%SZ").replace(tzinfo=timezone.utc)`. -/
structure Datetime where
  year : Nat
  month : Nat
  day : Nat
  hour : Nat
  minute : Nat
  second : Nat
deriving DecidableEq

/-- Value of a decimal digit character. -/
def digitVal (c : Char) : Nat := c.toNat - 48

/-- `%Y` in `_strptime`: exactly four decimal digits. -/
def parse4 : List Char → Option (Nat × List Char)
  | a :: b :: c :: d :: rest =>
    if a.isDigit && b.isDigit && c.isDigit && d.isDigit then
      some (1000 * digitVal a + 100 * digitVal b + 10 * digitVal c + digitVal d, rest)
    else none
  | _ => none

/-- A one-or-two-digit numeric field of `_strptime` (`%m`, `%d`, `%H`, `%M`,
`%S`).  The regex is an ordered alternation, but since in this format every
field is followed by a non-digit literal, it is equivalent to maximal munch:
when two digits are available only the two-digit branch can complete the
match, otherwise only the one-digit branch can. -/
def parse12 (ok2 : Nat → Bool) (ok1 : Nat → Bool) : List Char → Option (Nat × List Char)
  | a :: b :: rest =>
    if a.isDigit then
      if b.isDigit then
        if ok2 (10 * digitVal a + digitVal b) then
          some (10 * digitVal a + digitVal b, rest)
        else none
      else if ok1 (digitVal a) then some (digitVal a, b :: rest) else none
    else none
  | [a] => if a.isDigit && ok1 (digitVal a) then some (digitVal a, []) else none
  | [] => none

/-- A literal character of the format; `_strptime` compiles its pattern with
`re.IGNORECASE`, so letters match either case. -/
def parseLit (c : Char) : List Char → Option (List Char)
  | x :: rest => if x.toLower = c.toLower then some rest else none
  | [] => none

/-- Gregorian leap year, as in `calendar.isleap` / `datetime`. -/
def isLeap (y : Nat) : Bool := y % 4 == 0 && (y % 100 != 0 || y % 400 == 0)

/-- Length of a month (1-12). -/
def daysInMonth (y m : Nat) : Nat :=
  match m with
  | 1 => 31 | 2 => if isLeap y then 29 else 28 | 3 => 31 | 4 => 30
  | 5 => 31 | 6 => 30 | 7 => 31 | 8 => 31 | 9 => 30 | 10 => 31
  | 11 => 30 | 12 => 31 | _ => 0

/-- `datetime.strptime(s, "%Y-%m-%dT%H:%M:%SZ")`: match the whole string
against the format, then validate the fields as the `datetime` constructor
does (year at least 1, day within the month). -/
def strptimeIso (s : String) : Option Datetime := do
  let l := s.data
  let (y, l) ← parse4 l
  let l ← parseLit '-' l
  let (mo, l) ← parse12 (fun n => decide (1 ≤ n ∧ n ≤ 12)) (fun n => decide (1 ≤ n)) l
  let l ← parseLit '-' l
  let (d, l) ← parse12 (fun n => decide (1 ≤ n ∧ n ≤ 31)) (fun n => decide (1 ≤ n)) l
  let l ← parseLit 'T' l
  let (h, l) ← parse12 (fun n => decide (n ≤ 23)) (fun _ => true) l
  let l ← parseLit ':' l
  let (mi, l) ← parse12 (fun n => decide (n ≤ 59)) (fun _ => true) l
  let l ← parseLit ':' l
  let (se, l) ← parse12 (fun n => decide (n ≤ 59)) (fun _ => true) l
  let l ← parseLit 'Z' l
  guard (l = [])
  guard (1 ≤ y)
  guard (d ≤ daysInMonth y mo)
  pure ⟨y, mo, d, h, mi, se⟩

/-- `parse_github_iso8601(value)`: `None` for a missing/None/empty/non-string
value, otherwise `strptime` with the fixed format, with `ValueError`
mapped to `None`. -/
def parse_github_iso8601 (v : JVal) : Option Datetime :=
  match v with
  | .jstr s => if s = "" then none else strptimeIso s
  | _ => none

/-- `date.toordinal()` of the date part: day count in the proleptic
Gregorian calendar with 0001-01-01 as day 1. -/
def toOrdinal (dt : Datetime) : Nat :=
  let p := dt.year - 1
  let dbm := (List.range (dt.month - 1)).foldl (fun a i => a + daysInMonth dt.year (i + 1)) 0
  365 * p + p / 4 - p / 100 + p / 400 + dbm + dt.day

/-- The instant as seconds in a uniform UTC timeline. -/
def toSeconds (dt : Datetime) : Int :=
  (toOrdinal dt : Int) * 86400 + dt.hour * 3600 + dt.minute * 60 + dt.second

/-- `(b - a).days` for aware datetimes: `datetime.timedelta` normalizes so
that `days` is the floor of the difference in whole days. -/
def timedeltaDays (a b : Datetime) : Int :=
  Int.fdiv (toSeconds b - toSeconds a) 86400

/-- The `account_age` derivation of `render_stats_svg`:
`f"{max(0, int((now - created_at).days // 365))}y" if created_at else "n/a"`,
where `created_at = parse_github_iso8601(user.get("created_at"))` and a
`datetime` object is always truthy. -/
def accountAge (user : Obj) (now : Datetime) : String :=
  match parse_github_iso8601 (pyGet user "created_at") with
  | none => "n/a"
  | some created => toString (max 0 (Int.fdiv (timedeltaDays created now) 365)) ++ "y"

/-- The account-age formula exactly as the specification claim words it:
`floor(days_since(created_at) / 365)` followed by `"y"`, with no clamping.
Stated from the spec for comparison with `accountAge`. -/
def claimedAccountAge (created now : Datetime) : String :=
  toString (Int.fdiv (timedeltaDays created now) 365) ++ "y"

/-- Zero-pad a number to two digits (`strftime` field). -/
def pad2 (n : Nat) : String := if n < 10 then "0" ++ toString n else toString n

/-- Zero-pad a year to four digits (`strftime` `%Y`). -/
def pad4 (n : Nat) : String :=
  if n < 10 then "000" ++ toString n
  else if n < 100 then "00" ++ toString n
  else if n < 1000 then "0" ++ toString n
  else toString n

/-- `updated_at.strftime("%Y-%m-%d") if updated_at else "n/a"`. -/
def updatedLabel (user : Obj) : String :=
  match parse_github_iso8601 (pyGet user "updated_at") with
  | none => "n/a"
  | some dt => pad4 dt.year ++ "-" ++ pad2 dt.month ++ "-" ++ pad2 dt.day

/-- Insert thousands separators into a reversed digit list. -/
def commaRev : List Char → List Char
  | a :: b :: c :: d :: rest => a :: b :: c :: ',' :: commaRev (d :: rest)
  | l => l

/-- `format_number(value)`, i.e. `f"{value:,}"`: decimal digits grouped in
threes by commas, with a leading minus sign for negative values. -/
def format_number (v : Int) : String :=
  (if v < 0 then "-" else "") ++ String.mk ((commaRev (toString v.natAbs).data.reverse).reverse)

/-- The label `<text>` element of one stats row. -/
def statsRowLabelText (y : Nat) (label : String) : String :=
  "<text x=\"30\" y=\"" ++ toString y ++ "\" fill=\"#8af29f\" font-size=\"12\" font-family=\"ui-monospace, SFMono-Regular, Menlo, monospace\">$ " ++ label ++ "</text>"

/-- The value `<text>` element of one stats row. -/
def statsRowValueText (y : Nat) (value : String) : String :=
  "<text x=\"462\" y=\"" ++ toString y ++ "\" text-anchor=\"end\" fill=\"#d7ffe0\" font-size=\"18\" font-family=\"ui-monospace, SFMono-Regular, Menlo, monospace\">" ++ value ++ "</text>"

/-- The `for label, value in rows` loop of `render_stats_svg`, starting at
`y = 76` and stepping by 28. -/
def statsRowLines : List (String × String) → Nat → List String
  | [], _ => []
  | (label, value) :: rest, y =>
    statsRowLabelText y label :: statsRowValueText y value :: statsRowLines rest (y + 28)

/-- The `rows` list of `render_stats_svg`. -/
def statsRows (followers : Int) (repoCount : Nat) (totalStars : Int) (age : String) :
    List (String × String) :=
  [("followers", format_number followers),
   ("public_repos", format_number (repoCount : Int)),
   ("total_stars", format_number totalStars),
   ("account_age", age)]

/-- The full stats SVG document, given the already-derived pieces. -/
def statsSvgDoc (username : String) (rows : List (String × String)) (updLabel : String) : String :=
  "<svg xmlns=\"http://www.w3.org/2000/svg\" width=\"495\" height=\"195\" viewBox=\"0 0 495 195\" role=\"img\" aria-label=\"" ++ username ++ " GitHub stats\">"
  ++ "<defs>"
  ++ "<linearGradient id=\"g\" x1=\"0\" y1=\"0\" x2=\"1\" y2=\"1\">"
  ++ "<stop offset=\"0%\" stop-color=\"#08110b\"/>"
  ++ "<stop offset=\"100%\" stop-color=\"#030604\"/>"
  ++ "</linearGradient>"
  ++ "<pattern id=\"grid\" width=\"18\" height=\"18\" patternUnits=\"userSpaceOnUse\">"
  ++ "<path d=\"M18 0H0V18\" fill=\"none\" stroke=\"#0d1c12\" stroke-width=\"1\"/>"
  ++ "</pattern>"
  ++ "</defs>"
  ++ "<rect width=\"495\" height=\"195\" fill=\"url(#g)\"/>"
  ++ "<rect width=\"495\" height=\"195\" fill=\"url(#grid)\" opacity=\"0.5\"/>"
  ++ "<rect x=\"0.5\" y=\"0.5\" width=\"494\" height=\"194\" fill=\"none\" stroke=\"#1f4028\"/>"
  ++ "<text x=\"30\" y=\"30\" fill=\"#4ff57a\" font-size=\"14\" font-family=\"ui-monospace, SFMono-Regular, Menlo, monospace\">[ SYSTEM :: GITHUB PROFILE ]</text>"
  ++ "<text x=\"30\" y=\"50\" fill=\"#d7ffe0\" font-size=\"15\" font-family=\"ui-monospace, SFMono-Regular, Menlo, monospace\">@" ++ username ++ "</text>"
  ++ "<text x=\"462\" y=\"50\" text-anchor=\"end\" fill=\"#7fc38f\" font-size=\"11\" font-family=\"ui-monospace, SFMono-Regular, Menlo, monospace\">updated " ++ updLabel ++ "</text>"
  ++ String.join (statsRowLines rows 76)
  ++ "<rect x=\"28\" y=\"161\" width=\"439\" height=\"12\" fill=\"#0a120d\" stroke=\"#1a3422\"/>"
  ++ "<text x=\"36\" y=\"170\" fill=\"#7fc38f\" font-size=\"10\" font-family=\"ui-monospace, SFMono-Regular, Menlo, monospace\">status=online</text>"
  ++ "<text x=\"462\" y=\"170\" text-anchor=\"end\" fill=\"#7fc38f\" font-size=\"10\" font-family=\"ui-monospace, SFMono-Regular, Menlo, monospace\">source=api.github.com</text>"
  ++ "</svg>"

/-- `render_stats_svg(username, user, repo_count, total_stars)`.  The
function reads the ambient clock via `datetime.now(timezone.utc)`; the
embedding passes that instant in as `now`.  `int(user.get("followers", 0))`
can raise, hence the `Except`. -/
def render_stats_svg (username : String) (user : Obj) (repoCount : Nat)
    (totalStars : Int) (now : Datetime) : Except PyError String :=
  match pyIntE (pyGetD user "followers" (.jint 0)) with
  | .error e => .error e
  | .ok followers =>
    .ok (statsSvgDoc username
          (statsRows followers repoCount totalStars (accountAge user now))
          (updatedLabel user))

/-- Sort key order used by `render_top_langs_svg`:
`sorted(lang_bytes.items(), key=lambda kv: kv[1], reverse=True)` places `a`
before `b` when `b`'s byte count is at most `a`'s. -/
def bytesGE (a b : String × Int) : Prop := b.2 ≤ a.2

instance : DecidableRel bytesGE := fun a b => inferInstanceAs (Decidable (b.2 ≤ a.2))

instance : IsTotal (String × Int) bytesGE := ⟨fun a b => (Int.le_total b.2 a.2).imp id id⟩

instance : IsTrans (String × Int) bytesGE := ⟨fun _ _ _ hab hbc => le_trans hbc hab⟩

/-- `sorted(lang_bytes.items(), key=lambda kv: kv[1], reverse=True)`:
Python's `sorted` is stable, and with `reverse=True` elements that compare
equal also keep their original order; insertion sort with `bytesGE` is
exactly that stable descending sort. -/
def sortDescByBytes (l : List (String × Int)) : List (String × Int) :=
  List.insertionSort bytesGE l

/-- `top`: the first six entries of the stable descending sort. -/
def topLangs (l : List (String × Int)) : List (String × Int) :=
  (sortDescByBytes l).take 6

/-- The filled-bar width of one language row:
`max(2, int((size / total) * 280))`, with the float expression modelled as
the exact rational `size * 280 / total` and `int()` as truncation. -/
def barWidth (size total : Int) : Int := max 2 (Int.tdiv (size * 280) total)

/-- Round `a / total` (for `total > 0`) to the nearest integer, ties to
even: the rounding of Python's `format` on an exactly-represented value. -/
def roundHalfEven (a total : Int) : Int :=
  let q := Int.fdiv a total
  let r := a - q * total
  if 2 * r < total then q
  else if total < 2 * r then q + 1
  else if q % 2 = 0 then q else q + 1

/-- `f"{pct:.1f}"` for `pct = (size / total) * 100`, modelled over exact
rationals: one decimal digit, rounded half-to-even. -/
def formatPct (size total : Int) : String :=
  let n := roundHalfEven (size * 1000) total
  let m := n.natAbs
  (if n < 0 then "-" else "") ++ toString (m / 10) ++ "." ++ toString (m % 10)

/-- The language-name `<text>` element of one row (`language.lower()`). -/
def langNameText (y : Nat) (language : String) : String :=
  "<text x=\"30\" y=\"" ++ toString y ++ "\" fill=\"#d9f5ff\" font-size=\"12\" font-family=\"ui-monospace, SFMono-Regular, Menlo, monospace\">" ++ language.toLower ++ "</text>"

/-- The background track rectangle of one row. -/
def langTrackRect (y : Nat) : String :=
  "<rect x=\"150\" y=\"" ++ toString (y - 10) ++ "\" width=\"280\" height=\"8\" fill=\"#0e151b\"/>"

/-- The filled rectangle of one row. -/
def langFillRect (y : Nat) (width : Int) : String :=
  "<rect x=\"150\" y=\"" ++ toString (y - 10) ++ "\" width=\"" ++ toString width ++ "\" height=\"8\" fill=\"#54d6ff\"/>"

/-- The percentage `<text>` element of one row. -/
def langPctText (y : Nat) (pct : String) : String :=
  "<text x=\"462\" y=\"" ++ toString y ++ "\" text-anchor=\"end\" fill=\"#9fc8d8\" font-size=\"12\" font-family=\"ui-monospace, SFMono-Regular, Menlo, monospace\">" ++ pct ++ "%</text>"

/-- The `for language, size in top` loop, starting at `y = 60` and stepping
by 20. -/
def langRows : List (String × Int) → Int → Nat → List String
  | [], _, _ => []
  | (language, size) :: rest, total, y =>
    langNameText y language
    :: langTrackRect y
    :: langFillRect y (barWidth size total)
    :: langPctText y (formatPct size total)
    :: langRows rest total (y + 20)

/-- The placeholder line appended when there is no language data. -/
def noDataLine : String :=
  "<text x=\"30\" y=\"92\" fill=\"#8fa7b2\" font-size=\"14\" font-family=\"ui-monospace, SFMono-Regular, Menlo, monospace\">No public language data</text>"

/-- The fixed lines appended to `lines` before the branch. -/
def langHeader (username : String) : List String :=
  ["<svg xmlns=\"http://www.w3.org/2000/svg\" width=\"495\" height=\"195\" viewBox=\"0 0 495 195\" role=\"img\" aria-label=\"" ++ username ++ " top languages\">",
   "<defs>",
   "<linearGradient id=\"g2\" x1=\"0\" y1=\"0\" x2=\"1\" y2=\"1\">",
   "<stop offset=\"0%\" stop-color=\"#070d10\"/>",
   "<stop offset=\"100%\" stop-color=\"#040709\"/>",
   "</linearGradient>",
   "<pattern id=\"grid2\" width=\"18\" height=\"18\" patternUnits=\"userSpaceOnUse\">",
   "<path d=\"M18 0H0V18\" fill=\"none\" stroke=\"#122028\" stroke-width=\"1\"/>",
   "</pattern>",
   "</defs>",
   "<rect width=\"495\" height=\"195\" fill=\"url(#g2)\"/>",
   "<rect width=\"495\" height=\"195\" fill=\"url(#grid2)\" opacity=\"0.5\"/>",
   "<rect x=\"0.5\" y=\"0.5\" width=\"494\" height=\"194\" fill=\"none\" stroke=\"#24414f\"/>",
   "<text x=\"30\" y=\"30\" fill=\"#54d6ff\" font-size=\"14\" font-family=\"ui-monospace, SFMono-Regular, Menlo, monospace\">[ STACK :: TOP LANGUAGES ]</text>"]

/-- The fixed lines appended after the branch. -/
def langFooter : List String :=
  ["<text x=\"30\" y=\"174\" fill=\"#6f95a8\" font-size=\"10\" font-family=\"ui-monospace, SFMono-Regular, Menlo, monospace\">scope=owned_non_fork_repos</text>",
   "</svg>"]

/-- The branch of `render_top_langs_svg`: the placeholder when
`total <= 0 or not top`, the six (at most) rows otherwise. -/
def langBody (lang_bytes : List (String × Int)) : List String :=
  let total := (lang_bytes.map Prod.snd).sum
  let top := topLangs lang_bytes
  if total ≤ 0 ∨ top = [] then [noDataLine] else langRows top total 60

/-- `render_top_langs_svg(username, lang_bytes)`: `"".join(lines)`. -/
def render_top_langs_svg (username : String) (lang_bytes : List (String × Int)) : String :=
  String.join (langHeader username ++ langBody lang_bytes ++ langFooter)

/-- A concrete network for witnesses: two language payloads, everything
else a transport failure. -/
def netEx : String → Transport := fun u =>
  if u = "L1" then .ok (.jobj [("Go", .jint 100)])
  else if u = "L2" then .ok (.jobj [("Go", .jint 50), ("Rust", .jint 50)])
  else .failure "dns"

/-- Concrete repositories for witnesses: two non-forks with stars 3 and 7,
one fork in between. -/
def reposEx : List Obj :=
  [[("fork", .jbool false), ("stargazers_count", .jint 3), ("languages_url", .jstr "L1")],
   [("fork", .jbool true), ("stargazers_count", .jint 999), ("languages_url", .jstr "L1")],
   [("fork", .jbool false), ("stargazers_count", .jint 7), ("languages_url", .jstr "L2")]]

theorem aggStep_of_fork (net : String → Transport) (acc : Nat × Int × List (String × Int))
    (r : Obj) (h : pyTruthy (pyGet r "fork") = true) : aggStep net acc r = .ok acc := by
  simp [aggStep, h]

theorem aggStep_ok_nonfork (net : String → Transport)
    (acc acc2 : Nat × Int × List (String × Int)) (r : Obj)
    (hf : pyTruthy (pyGet r "fork") = false)
    (h : aggStep net acc r = .ok acc2) :
    acc2.1 = acc.1 + 1 ∧ acc2.2.1 = acc.2.1 + starOf r ∧
      (acc2.2.2 = acc.2.2 ∨
        ∃ fields, langFetch net r = .ok (some fields) ∧ acc2.2.2 = addLangs acc.2.2 fields) := by
  unfold aggStep at h
  rw [hf] at h
  simp only [Bool.false_eq_true, if_false] at h
  cases hs : pyIntE (pyOr (pyGetD r "stargazers_count" (.jint 0)) (.jint 0)) with
  | error e => rw [hs] at h; cases h
  | ok s =>
    rw [hs] at h
    have hstar : starOf r = s := by rw [starOf, hs]
    cases hl : langFetch net r with
    | error e => rw [hl] at h; cases h
    | ok p =>
      rw [hl] at h
      cases p with
      | none =>
        cases h
        exact ⟨rfl, by rw [hstar], Or.inl rfl⟩
      | some fields =>
        cases h
        exact ⟨rfl, by rw [hstar], Or.inr ⟨fields, rfl, rfl⟩⟩

theorem aggregate_invariant (net : String → Transport) :
    ∀ (repos : List Obj) (acc out : Nat × Int × List (String × Int)),
      aggregate net repos acc = .ok out →
      out.1 = acc.1 + (repos.filter nonFork).length ∧
      out.2.1 = acc.2.1 + ((repos.filter nonFork).map starOf).sum := by
  intro repos
  induction repos with
  | nil =>
    intro acc out h
    cases h
    simp
  | cons r rs ih =>
    intro acc out h
    unfold aggregate at h
    cases hstep : aggStep net acc r with
    | error e => rw [hstep] at h; cases h
    | ok acc2 =>
      rw [hstep] at h
      by_cases hf : pyTruthy (pyGet r "fork") = true
      · have hacc : acc2 = acc := by
          have := aggStep_of_fork net acc r hf
          rw [this] at hstep
          cases hstep
          rfl
        subst hacc
        have hFil : nonFork r = false := by simp [nonFork, hf]
        rw [List.filter_cons_of_neg (by simp [hFil])]
        exact ih _ out h
      · have hf' : pyTruthy (pyGet r "fork") = false := by
          revert hf; cases pyTruthy (pyGet r "fork") <;> simp
        obtain ⟨h1, h2, _⟩ := aggStep_ok_nonfork net acc acc2 r hf' hstep
        obtain ⟨ih1, ih2⟩ := ih acc2 out h
        have hFil : nonFork r = true := by simp [nonFork, hf']
        rw [List.filter_cons_of_pos hFil]
        constructor
        · simp only [List.length_cons]
          omega
        · simp only [List.map_cons, List.sum_cons]
          rw [ih2, h2]
          ring

/-- C1: for every finite repository sequence, a successful aggregation ends
with `repo_count` equal to the number of repositories whose `fork` flag is
falsy: forks are skipped and every non-fork increments the count by one. -/
theorem c1_repo_count (net : String → Transport) (repos : List Obj)
    (rc : Nat) (ts : Int) (lt : List (String × Int))
    (h : aggregate net repos (0, 0, []) = .ok (rc, ts, lt)) :
    rc = (repos.filter (fun r => !pyTruthy (pyGet r "fork"))).length := by
  have := (aggregate_invariant net repos (0, 0, []) (rc, ts, lt) h).1
  simpa [nonFork] using this

/-- C1 witness: a concrete successful run with one fork and two non-forks. -/
theorem c1_repo_count_witness :
    (2 : Nat) = (reposEx.filter (fun r => !pyTruthy (pyGet r "fork"))).length :=
  c1_repo_count netEx reposEx 2 10 [("Go", 150), ("Rust", 50)] (by decide)

/-- C2: for every finite repository sequence, a successful aggregation ends
with `total_stars` equal to the sum of the coerced `stargazers_count` over
the repositories with a falsy `fork` flag; a missing or `null`
`stargazers_count` contributes `0`. -/
theorem c2_total_stars (net : String → Transport) (repos : List Obj)
    (rc : Nat) (ts : Int) (lt : List (String × Int))
    (h : aggregate net repos (0, 0, []) = .ok (rc, ts, lt)) :
    ts = ((repos.filter (fun r => !pyTruthy (pyGet r "fork"))).map starOf).sum ∧
    (∀ r : Obj, lookup? r "stargazers_count" = none → starOf r = 0) ∧
    (∀ r : Obj, lookup? r "stargazers_count" = some .jnull → starOf r = 0) := by
  refine ⟨?_, ?_, ?_⟩
  · have := (aggregate_invariant net repos (0, 0, []) (rc, ts, lt) h).2
    simpa [nonFork] using this
  · intro r hr
    simp [starOf, pyGetD, hr, pyOr, pyTruthy, pyIntE]
  · intro r hr
    simp [starOf, pyGetD, hr, pyOr, pyTruthy, pyIntE]

/-- C2 witness: the totals on the concrete run, and the default on a
repository with a `null` star count. -/
theorem c2_total_stars_witness :
    (10 : Int) = ((reposEx.filter (fun r => !pyTruthy (pyGet r "fork"))).map starOf).sum ∧
    starOf [("stargazers_count", .jnull)] = 0 :=
  ⟨(c2_total_stars netEx reposEx 2 10 [("Go", 150), ("Rust", 50)] (by decide)).1,
   (c2_total_stars netEx reposEx 2 10 [("Go", 150), ("Rust", 50)] (by decide)).2.2
     [("stargazers_count", .jnull)] rfl⟩

theorem aggregate_eq_filter (net : String → Transport) :
    ∀ (repos : List Obj) (acc : Nat × Int × List (String × Int)),
      aggregate net repos acc = aggregate net (repos.filter nonFork) acc := by
  intro repos
  induction repos with
  | nil => intro acc; rfl
  | cons r rs ih =>
    intro acc
    by_cases hf : pyTruthy (pyGet r "fork") = true
    · have hFil : nonFork r = false := by simp [nonFork, hf]
      rw [List.filter_cons_of_neg (by simp [hFil])]
      show (match aggStep net acc r with
            | Except.error e => Except.error e
            | Except.ok acc2 => aggregate net rs acc2) = _
      rw [aggStep_of_fork net acc r hf]
      exact ih acc
    · have hf' : pyTruthy (pyGet r "fork") = false := by
        revert hf; cases pyTruthy (pyGet r "fork") <;> simp
      have hFil : nonFork r = true := by simp [nonFork, hf']
      rw [List.filter_cons_of_pos hFil]
      show (match aggStep net acc r with
            | Except.error e => Except.error e
            | Except.ok acc2 => aggregate net rs acc2) =
          (match aggStep net acc r with
            | Except.error e => Except.error e
            | Except.ok acc2 => aggregate net (rs.filter nonFork) acc2)
      cases aggStep net acc r with
      | error e => rfl
      | ok acc2 => exact ih acc2

theorem updateAssoc_keys :
    ∀ (t : List (String × Int)) (n : String) (v : Int) (k : String),
      k ∈ (updateAssoc t n v).map Prod.fst → k = n ∨ k ∈ t.map Prod.fst := by
  intro t
  induction t with
  | nil =>
    intro n v k h
    simp [updateAssoc] at h
    exact Or.inl h
  | cons p rest ih =>
    intro n v k h
    obtain ⟨k', v'⟩ := p
    by_cases he : k' = n
    · simp only [updateAssoc, if_pos he] at h
      simp only [List.map_cons, List.mem_cons] at h ⊢
      tauto
    · simp only [updateAssoc, if_neg he] at h
      simp only [List.map_cons, List.mem_cons] at h ⊢
      rcases h with h | h
      · tauto
      · rcases ih n v k h with h2 | h2 <;> tauto

theorem addLangs_keys :
    ∀ (fields : List (String × JVal)) (t : List (String × Int)) (k : String),
      k ∈ (addLangs t fields).map Prod.fst →
      k ∈ t.map Prod.fst ∨ ∃ v, (k, v) ∈ fields ∧ isIntSize v = true := by
  intro fields
  induction fields with
  | nil =>
    intro t k h
    exact Or.inl h
  | cons p rest ih =>
    intro t k h
    obtain ⟨name, size⟩ := p
    cases size with
    | jint n =>
      rcases ih _ k h with h2 | ⟨v, hv, hi⟩
      · rcases updateAssoc_keys t name n k h2 with h3 | h3
        · exact Or.inr ⟨JVal.jint n, by simp [h3], rfl⟩
        · exact Or.inl h3
      · exact Or.inr ⟨v, by simp [hv], hi⟩
    | jbool b =>
      rcases ih _ k h with h2 | ⟨v, hv, hi⟩
      · rcases updateAssoc_keys t name (cond b 1 0) k h2 with h3 | h3
        · exact Or.inr ⟨JVal.jbool b, by simp [h3], rfl⟩
        · exact Or.inl h3
      · exact Or.inr ⟨v, by simp [hv], hi⟩
    | jnull =>
      rcases ih t k h with h2 | ⟨v, hv, hi⟩
      · exact Or.inl h2
      · exact Or.inr ⟨v, by simp [hv], hi⟩
    | jstr s =>
      rcases ih t k h with h2 | ⟨v, hv, hi⟩
      · exact Or.inl h2
      · exact Or.inr ⟨v, by simp [hv], hi⟩
    | jarr xs =>
      rcases ih t k h with h2 | ⟨v, hv, hi⟩
      · exact Or.inl h2
      · exact Or.inr ⟨v, by simp [hv], hi⟩
    | jobj fs =>
      rcases ih t k h with h2 | ⟨v, hv, hi⟩
      · exact Or.inl h2
      · exact Or.inr ⟨v, by simp [hv], hi⟩

theorem langFetch_ok_some (net : String → Transport) (r : Obj)
    (fields : List (String × JVal)) (h : langFetch net r = .ok (some fields)) :
    ∃ url, pyGet r "languages_url" = .jstr url ∧ url ≠ "" ∧
      api_get net url = .ok (.jobj fields) := by
  unfold langFetch at h
  cases hg : pyGet r "languages_url" with
  | jstr url =>
    rw [hg] at h
    dsimp only at h
    by_cases he : url = ""
    · rw [if_pos he] at h; cases h
    · rw [if_neg he] at h
      cases ha : api_get net url with
      | error e => rw [ha] at h; cases h
      | ok v =>
        rw [ha] at h
        cases v with
        | jobj fs => cases h; exact ⟨url, rfl, he, ha⟩
        | jnull => cases h
        | jbool b => cases h
        | jint n => cases h
        | jstr s => cases h
        | jarr xs => cases h
  | jnull => rw [hg] at h; cases h
  | jbool b => rw [hg] at h; cases h
  | jint n => rw [hg] at h; cases h
  | jarr xs => rw [hg] at h; cases h
  | jobj fs => rw [hg] at h; cases h

theorem aggregate_keys (net : String → Transport) :
    ∀ (repos : List Obj) (acc out : Nat × Int × List (String × Int)),
      aggregate net repos acc = .ok out →
      ∀ k, k ∈ out.2.2.map Prod.fst →
        k ∈ acc.2.2.map Prod.fst ∨
        ∃ r, r ∈ repos ∧ pyTruthy (pyGet r "fork") = false ∧
          ∃ fields, langFetch net r = .ok (some fields) ∧
            ∃ v, (k, v) ∈ fields ∧ isIntSize v = true := by
  intro repos
  induction repos with
  | nil =>
    intro acc out h k hk
    cases h
    exact Or.inl hk
  | cons r rs ih =>
    intro acc out h k hk
    unfold aggregate at h
    cases hstep : aggStep net acc r with
    | error e => rw [hstep] at h; cases h
    | ok acc2 =>
      rw [hstep] at h
      by_cases hf : pyTruthy (pyGet r "fork") = true
      · have hacc : acc2 = acc := by
          have := aggStep_of_fork net acc r hf
          rw [this] at hstep
          cases hstep
          rfl
        subst hacc
        rcases ih _ out h k hk with h2 | ⟨r', hr', hrest⟩
        · exact Or.inl h2
        · exact Or.inr ⟨r', List.mem_cons_of_mem r hr', hrest⟩
      · have hf' : pyTruthy (pyGet r "fork") = false := by
          revert hf; cases pyTruthy (pyGet r "fork") <;> simp
        obtain ⟨_, _, hlang⟩ := aggStep_ok_nonfork net acc acc2 r hf' hstep
        rcases ih acc2 out h k hk with h2 | ⟨r', hr', hrest⟩
        · rcases hlang with heq | ⟨fields, hfl, heq⟩
          · rw [heq] at h2
            exact Or.inl h2
          · rw [heq] at h2
            rcases addLangs_keys fields acc.2.2 k h2 with h3 | ⟨v, hv, hi⟩
            · exact Or.inl h3
            · exact Or.inr ⟨r, List.mem_cons_self r rs, hf', fields, hfl, v, hv, hi⟩
        · exact Or.inr ⟨r', List.mem_cons_of_mem r hr', hrest⟩

/-- C3: the accumulated language totals take contributions only from
repositories with a falsy `fork` flag -- the aggregation is unchanged by
dropping all fork repositories -- and every key of the final mapping stems
from at least one `(language, bytes)` entry of a non-fork repository's
language payload. -/
theorem c3_language_totals (net : String → Transport) (repos : List Obj)
    (rc : Nat) (ts : Int) (lt : List (String × Int))
    (h : aggregate net repos (0, 0, []) = .ok (rc, ts, lt)) :
    aggregate net repos (0, 0, []) =
      aggregate net (repos.filter (fun r => !pyTruthy (pyGet r "fork"))) (0, 0, []) ∧
    ∀ k, k ∈ lt.map Prod.fst →
      ∃ r, r ∈ repos ∧ pyTruthy (pyGet r "fork") = false ∧
        ∃ url fields, pyGet r "languages_url" = JVal.jstr url ∧ url ≠ "" ∧
          api_get net url = .ok (.jobj fields) ∧
          ∃ v, (k, v) ∈ fields ∧ isIntSize v = true := by
  constructor
  · exact aggregate_eq_filter net repos (0, 0, [])
  · intro k hk
    rcases aggregate_keys net repos (0, 0, []) (rc, ts, lt) h k hk with h2 | h2
    · simp at h2
    · obtain ⟨r, hr, hf, fields, hfl, v, hv, hi⟩ := h2
      obtain ⟨url, hurl, hne, hok⟩ := langFetch_ok_some net r fields hfl
      exact ⟨r, hr, hf, url, fields, hurl, hne, hok, v, hv, hi⟩

/-- C3 witness: on the concrete run, the key `"Go"` of the final totals is
traced back to a non-fork repository's language payload. -/
theorem c3_language_totals_witness :
    ∃ r, r ∈ reposEx ∧ pyTruthy (pyGet r "fork") = false ∧
      ∃ url fields, pyGet r "languages_url" = JVal.jstr url ∧ url ≠ "" ∧
        api_get netEx url = .ok (.jobj fields) ∧
        ∃ v, ("Go", v) ∈ fields ∧ isIntSize v = true :=
  (c3_language_totals netEx reposEx 2 10 [("Go", 150), ("Rust", 50)] (by decide)).2
    "Go" (by decide)

/-- C4 counterexample: a transport failure (here a timeout) surfaces as the
unwrapped `URLError` kind, while a non-2xx response surfaces as the wrapped
`RuntimeError` kind -- two distinct error kinds, refuting the claim that
both failure classes share one kind. -/
theorem c4_counterexample :
    api_get (fun _ => Transport.failure "timed out") "https://api.github.com/users/x" =
      .error (.urlError "timed out") ∧
    api_get (fun _ => Transport.httpError 404 "Not Found") "https://api.github.com/users/x" =
      .error (.runtimeError
        "GitHub API error 404 for https://api.github.com/users/x: Not Found") ∧
    PyError.kindIndex (.urlError "timed out") ≠
      PyError.kindIndex (.runtimeError
        "GitHub API error 404 for https://api.github.com/users/x: Not Found") := by
  refine ⟨rfl, rfl, by decide⟩

/-- C4 amended: a non-2xx HTTP response is wrapped into the structured
`RuntimeError` ("RemoteAPIError") kind carrying status, URL and body, but a
transport-level failure propagates unwrapped with its own distinct kind, so
the caller observes two different error kinds for the two failure
classes. -/
theorem c4_error_kinds (net : String → Transport) (url : String) :
    (∀ code body, net url = .httpError code body →
      api_get net url = .error (.runtimeError
        ("GitHub API error " ++ toString code ++ " for " ++ url ++ ": " ++ body))) ∧
    (∀ cause, net url = .failure cause →
      api_get net url = .error (.urlError cause)) ∧
    (∀ msg cause,
      PyError.kindIndex (.runtimeError msg) ≠ PyError.kindIndex (.urlError cause)) := by
  refine ⟨?_, ?_, ?_⟩
  · intro code body h
    simp [api_get, h]
  · intro cause h
    simp [api_get, h]
  · intro msg cause
    simp [PyError.kindIndex]

/-- C4 witness: the amended behaviour at a concrete timed-out request. -/
theorem c4_error_kinds_witness :
    api_get (fun _ => Transport.failure "dns") "u" = .error (.urlError "dns") :=
  (c4_error_kinds (fun _ => Transport.failure "dns") "u").2.1 "dns" rfl

theorem filter_orderedInsert (x : String × Int) (l : List (String × Int)) (v : Int) :
    (List.orderedInsert bytesGE x l).filter (fun p => p.2 == v) =
      (x :: l).filter (fun p => p.2 == v) := by
  induction l with
  | nil => rfl
  | cons y ys ih =>
    by_cases h : bytesGE x y
    · rw [List.orderedInsert_of_le bytesGE ys h]
    · have hins : List.orderedInsert bytesGE x (y :: ys) =
          y :: List.orderedInsert bytesGE x ys := by
        simp [List.orderedInsert, h]
      have hxy : x.2 ≠ y.2 := by
        intro he
        exact h (le_of_eq he.symm)
      rw [hins]
      by_cases hy : y.2 = v <;> by_cases hx : x.2 = v
      · exact absurd (hx.trans hy.symm) hxy
      · simp [List.filter_cons, hy, hx, ih]
      · simp [List.filter_cons, hy, hx, ih]
      · simp [List.filter_cons, hy, hx, ih]

theorem filter_sortDescByBytes (l : List (String × Int)) (v : Int) :
    (sortDescByBytes l).filter (fun p => p.2 == v) = l.filter (fun p => p.2 == v) := by
  induction l with
  | nil => rfl
  | cons x xs ih =>
    show (List.orderedInsert bytesGE x (List.insertionSort bytesGE xs)).filter _ = _
    rw [filter_orderedInsert]
    by_cases hx : x.2 = v
    · simp only [List.filter_cons, hx]
      simpa using congrArg (List.cons x) ih
    · simp only [List.filter_cons]
      simp only [show (x.2 == v) = false by simp [hx]]
      exact ih

/-- C5: the top-languages selection returns at most 6 entries, in
non-increasing byte-count order; the underlying sort is stable, so entries
with equal byte counts keep the original iteration order of the mapping
(the entries with any fixed byte count appear exactly as in the input). -/
theorem c5_top_selection (l : List (String × Int)) :
    (topLangs l).length ≤ 6 ∧
    (topLangs l).Pairwise (fun a b => b.2 ≤ a.2) ∧
    (∀ v : Int, (sortDescByBytes l).filter (fun p => p.2 == v) =
      l.filter (fun p => p.2 == v)) ∧
    topLangs l = (sortDescByBytes l).take 6 := by
  refine ⟨List.length_take_le 6 _, ?_, fun v => filter_sortDescByBytes l v, rfl⟩
  have hs : List.Pairwise bytesGE (sortDescByBytes l) :=
    List.sorted_insertionSort bytesGE l
  exact (List.Pairwise.sublist (List.take_sublist 6 _) hs).imp (fun h => h)

/-- C6: for a row with byte count `b` and positive total `t` with `b ≤ t`,
the filled bar width is `max(2, floor(280 * b / t))`, hence always between
2 and 280, and a zero-byte entry gets width 2. -/
theorem c6_bar_width (b t : Int) (hbt : b ≤ t) (ht : 0 < t) :
    barWidth b t = max 2 (Int.fdiv (280 * b) t) ∧
    2 ≤ barWidth b t ∧ barWidth b t ≤ 280 ∧
    (b = 0 → barWidth b t = 2) := by
  rcases le_or_lt 0 b with hb | hb
  · have h1 : Int.tdiv (b * 280) t = (b * 280) / t :=
      Int.tdiv_eq_ediv (by positivity) ht.le
    have h2 : Int.fdiv (280 * b) t = (280 * b) / t := Int.fdiv_eq_ediv _ ht.le
    have hub : (b * 280) / t ≤ 280 := by
      have hmul : b * 280 ≤ t * 280 :=
        mul_le_mul_of_nonneg_right hbt (by norm_num)
      have := Int.ediv_le_ediv ht hmul
      rwa [mul_comm t 280, Int.mul_ediv_cancel 280 ht.ne'] at this
    refine ⟨?_, le_max_left _ _, ?_, ?_⟩
    · rw [barWidth, h1, h2, mul_comm b 280]
    · rw [barWidth, h1]
      exact max_le (by norm_num) hub
    · intro h0
      subst h0
      rw [barWidth]
      norm_num
  · have hneg : b * 280 < 0 := by nlinarith
    have htd : Int.tdiv (b * 280) t ≤ 0 := by
      have h1 : Int.tdiv (-(b * 280)) t = -Int.tdiv (b * 280) t := Int.neg_tdiv _ _
      have h2 : 0 ≤ Int.tdiv (-(b * 280)) t := Int.tdiv_nonneg (by omega) ht.le
      omega
    have hfd : Int.fdiv (280 * b) t ≤ 0 := by
      rw [Int.fdiv_eq_ediv _ ht.le]
      exact (Int.ediv_neg' (by nlinarith) ht).le
    refine ⟨?_, ?_, ?_, ?_⟩
    · rw [barWidth, max_eq_left (by omega : Int.tdiv (b * 280) t ≤ 2),
        max_eq_left (by omega : Int.fdiv (280 * b) t ≤ 2)]
    · rw [barWidth]; exact le_max_left _ _
    · rw [barWidth, max_eq_left (by omega : Int.tdiv (b * 280) t ≤ 2)]
      norm_num
    · intro h0; omega

/-- C6 witness: the bounds at the concrete row `(b, t) = (1, 2)`. -/
theorem c6_bar_width_witness :
    barWidth 1 2 = max 2 (Int.fdiv (280 * 1) 2) ∧
    2 ≤ barWidth 1 2 ∧ barWidth 1 2 ≤ 280 ∧
    ((1 : Int) = 0 → barWidth 1 2 = 2) :=
  c6_bar_width 1 2 (by norm_num) (by norm_num)

/-- C7 counterexample: for a creation timestamp in the future (created
2022-01-01, clock at 2020-01-01) the code renders `"0y"` -- the clamped
`max(0, days // 365)` -- while the claim's unclamped formula
`floor(days_since(created_at) / 365)` gives `"-3y"`. -/
theorem c7_counterexample :
    parse_github_iso8601 (JVal.jstr "2022-01-01T00:00:00Z") =
      some ⟨2022, 1, 1, 0, 0, 0⟩ ∧
    accountAge [("created_at", JVal.jstr "2022-01-01T00:00:00Z")] ⟨2020, 1, 1, 0, 0, 0⟩
      = "0y" ∧
    claimedAccountAge ⟨2022, 1, 1, 0, 0, 0⟩ ⟨2020, 1, 1, 0, 0, 0⟩ = "-3y" ∧
    accountAge [("created_at", JVal.jstr "2022-01-01T00:00:00Z")] ⟨2020, 1, 1, 0, 0, 0⟩
      ≠ claimedAccountAge ⟨2022, 1, 1, 0, 0, 0⟩ ⟨2020, 1, 1, 0, 0, 0⟩ := by
  refine ⟨by decide, by decide, by decide, by decide⟩

/-- C7 amended: `account_age` renders `"n/a"` when `created_at` is absent,
null, or fails to parse against `YYYY-MM-DDTHH:MM:SSZ`; otherwise it
renders `max(0, floor(days_since(created_at) / 365))` -- the year count
clamped below at zero -- followed by `"y"`. -/
theorem c7_account_age (user : Obj) (now : Datetime) :
    (lookup? user "created_at" = none → accountAge user now = "n/a") ∧
    (pyGet user "created_at" = JVal.jnull → accountAge user now = "n/a") ∧
    (∀ s, pyGet user "created_at" = JVal.jstr s → strptimeIso s = none →
      accountAge user now = "n/a") ∧
    (∀ created, parse_github_iso8601 (pyGet user "created_at") = some created →
      accountAge user now =
        toString (max 0 (Int.fdiv (timedeltaDays created now) 365)) ++ "y") := by
  refine ⟨?_, ?_, ?_, ?_⟩
  · intro h
    have hp : parse_github_iso8601 (pyGet user "created_at") = none := by
      rw [pyGet, pyGetD, h, Option.getD_none]
      rfl
    rw [accountAge, hp]
  · intro h
    have hp : parse_github_iso8601 (pyGet user "created_at") = none := by
      rw [h]
      rfl
    rw [accountAge, hp]
  · intro s hs hparse
    have hp : parse_github_iso8601 (pyGet user "created_at") = none := by
      rw [hs, parse_github_iso8601]
      by_cases he : s = ""
      · rw [if_pos he]
      · rw [if_neg he, hparse]
    rw [accountAge, hp]
  · intro created h
    rw [accountAge, h]

/-- C7 witness: the amended statement applied to a profile with no
`created_at` and to one with a parseable `created_at`. -/
theorem c7_account_age_witness :
    accountAge [] ⟨2020, 1, 1, 0, 0, 0⟩ = "n/a" ∧
    accountAge [("created_at", JVal.jstr "2018-03-01T00:00:00Z")] ⟨2025, 10, 12, 0, 0, 0⟩ =
      toString (max 0 (Int.fdiv
        (timedeltaDays ⟨2018, 3, 1, 0, 0, 0⟩ ⟨2025, 10, 12, 0, 0, 0⟩) 365)) ++ "y" :=
  ⟨(c7_account_age [] ⟨2020, 1, 1, 0, 0, 0⟩).1 rfl,
   (c7_account_age [("created_at", JVal.jstr "2018-03-01T00:00:00Z")]
      ⟨2025, 10, 12, 0, 0, 0⟩).2.2.2 ⟨2018, 3, 1, 0, 0, 0⟩ (by decide)⟩

/-- C8: when the byte total is non-positive or there are no languages, the
languages card body is exactly the single "no data" placeholder line (so no
language rows are emitted); and with zero non-fork repositories the
aggregation yields `repo_count = 0`, `total_stars = 0` and empty totals,
the languages card for those totals shows the placeholder, and the stats
card still renders its rows with `"0"` for `public_repos` and
`total_stars`. -/
theorem c8_no_data (net : String → Transport) (repos : List Obj) (u : String)
    (l : List (String × Int)) (f : Int) (age : String)
    (hfork : ∀ r ∈ repos, pyTruthy (pyGet r "fork") = true)
    (hl : (l.map Prod.snd).sum ≤ 0 ∨ l = []) :
    aggregate net repos (0, 0, []) = .ok (0, 0, []) ∧
    langBody l = [noDataLine] ∧
    render_top_langs_svg u [] = String.join (langHeader u ++ [noDataLine] ++ langFooter) ∧
    statsRows f 0 0 age =
      [("followers", format_number f), ("public_repos", "0"),
       ("total_stars", "0"), ("account_age", age)] := by
  refine ⟨?_, ?_, rfl, ?_⟩
  · have hnil : repos.filter nonFork = [] := by
      rw [List.filter_eq_nil_iff]
      intro r hr
      simp [nonFork, hfork r hr]
    rw [aggregate_eq_filter net repos (0, 0, []), hnil]
    rfl
  · rcases hl with hl | hl
    · simp only [langBody]
      rw [if_pos (Or.inl hl)]
    · subst hl
      rfl
  · simp only [statsRows, Nat.cast_zero]
    simp only [show format_number 0 = "0" from by decide]

/-- C8 witness: the statement at a concrete all-fork repository list and a
zero-byte language mapping. -/
theorem c8_no_data_witness :
    aggregate netEx [[("fork", JVal.jbool true)]] (0, 0, []) = .ok (0, 0, []) ∧
    langBody [("Go", 0)] = [noDataLine] ∧
    render_top_langs_svg "x" [] =
      String.join (langHeader "x" ++ [noDataLine] ++ langFooter) ∧
    statsRows 42 0 0 "n/a" =
      [("followers", format_number 42), ("public_repos", "0"),
       ("total_stars", "0"), ("account_age", "n/a")] :=
  c8_no_data netEx [[("fork", JVal.jbool true)]] "x" [("Go", 0)] 42 "n/a"
    (by decide) (Or.inl (by decide))

set_option maxRecDepth 2048 in
/-- C9 counterexample: with the username, profile, `repo_count` and
`total_stars` all fixed, moving only the ambient clock changes the rendered
stats SVG (the account age goes from `"0y"` to `"11y"`) -- the renderer
reads `datetime.now()`, so it is not a pure function of the four listed
inputs. -/
theorem c9_counterexample :
    render_stats_svg "octo" [("created_at", JVal.jstr "2020-01-01T00:00:00Z")] 0 0
      ⟨2020, 6, 1, 0, 0, 0⟩ ≠
    render_stats_svg "octo" [("created_at", JVal.jstr "2020-01-01T00:00:00Z")] 0 0
      ⟨2031, 6, 1, 0, 0, 0⟩ := by
  intro h
  have h1 : render_stats_svg "octo" [("created_at", JVal.jstr "2020-01-01T00:00:00Z")] 0 0
      ⟨2020, 6, 1, 0, 0, 0⟩ =
      .ok (statsSvgDoc "octo"
        (statsRows 0 0 0
          (accountAge [("created_at", JVal.jstr "2020-01-01T00:00:00Z")] ⟨2020, 6, 1, 0, 0, 0⟩))
        (updatedLabel [("created_at", JVal.jstr "2020-01-01T00:00:00Z")])) := rfl
  have h2 : render_stats_svg "octo" [("created_at", JVal.jstr "2020-01-01T00:00:00Z")] 0 0
      ⟨2031, 6, 1, 0, 0, 0⟩ =
      .ok (statsSvgDoc "octo"
        (statsRows 0 0 0
          (accountAge [("created_at", JVal.jstr "2020-01-01T00:00:00Z")] ⟨2031, 6, 1, 0, 0, 0⟩))
        (updatedLabel [("created_at", JVal.jstr "2020-01-01T00:00:00Z")])) := rfl
  rw [h1, h2,
    show accountAge [("created_at", JVal.jstr "2020-01-01T00:00:00Z")] ⟨2020, 6, 1, 0, 0, 0⟩
      = "0y" from by decide,
    show accountAge [("created_at", JVal.jstr "2020-01-01T00:00:00Z")] ⟨2031, 6, 1, 0, 0, 0⟩
      = "11y" from by decide] at h
  injection h with hd
  have hlen := congrArg String.length hd
  simp only [statsSvgDoc, statsRows, statsRowLines, String.join, List.foldl,
    statsRowLabelText, statsRowValueText, String.length_append] at hlen
  exact absurd hlen (by decide)

/-- C9 amended: the stats renderer is deterministic in the username,
profile, `repo_count`, `total_stars` and the current time; the clock is the
only ambient input, and it influences the document only through the
`account_age` derivation: invocations whose account-age strings agree
render identical SVG text. -/
theorem c9_deterministic (username : String) (user : Obj) (repoCount : Nat)
    (totalStars : Int) (now now2 : Datetime)
    (h : accountAge user now = accountAge user now2) :
    render_stats_svg username user repoCount totalStars now =
      render_stats_svg username user repoCount totalStars now2 := by
  unfold render_stats_svg
  cases pyIntE (pyGetD user "followers" (.jint 0)) with
  | error e => rfl
  | ok followers => rw [h]

/-- C9 witness: equal clocks modulo account age give equal documents. -/
theorem c9_deterministic_witness :
    render_stats_svg "octo" [] 3 4 ⟨2020, 1, 1, 0, 0, 0⟩ =
      render_stats_svg "octo" [] 3 4 ⟨2025, 1, 1, 0, 0, 0⟩ :=
  c9_deterministic "octo" [] 3 4 ⟨2020, 1, 1, 0, 0, 0⟩ ⟨2025, 1, 1, 0, 0, 0⟩ rfl

/-- C10: whenever `created_at` parses, the rendered account age is a
non-negative year count -- the clamp `max(0, ...)` makes a future creation
timestamp render as `"0y"` rather than a negative value. -/
theorem c10_age_nonneg (user : Obj) (now created : Datetime)
    (h : parse_github_iso8601 (pyGet user "created_at") = some created) :
    (∃ n : Nat, accountAge user now = toString n ++ "y") ∧
    (timedeltaDays created now < 0 → accountAge user now = "0y") := by
  have hage : accountAge user now =
      toString (max 0 (Int.fdiv (timedeltaDays created now) 365)) ++ "y" := by
    rw [accountAge, h]
  constructor
  · obtain ⟨n, hn⟩ :=
      Int.eq_ofNat_of_zero_le (le_max_left 0 (Int.fdiv (timedeltaDays created now) 365))
    refine ⟨n, ?_⟩
    rw [hage, hn]
    rfl
  · intro hneg
    have h1 : Int.fdiv (timedeltaDays created now) 365 < 0 := by
      rw [Int.fdiv_eq_ediv _ (by norm_num : (0 : Int) ≤ 365)]
      exact Int.ediv_neg' hneg (by norm_num)
    rw [hage, max_eq_left h1.le]
    rfl

/-- C10 witness: a creation timestamp ten years in the future renders as
`"0y"`. -/
theorem c10_age_nonneg_witness :
    (∃ n : Nat, accountAge [("created_at", JVal.jstr "2030-01-01T00:00:00Z")]
      ⟨2020, 1, 1, 0, 0, 0⟩ = toString n ++ "y") ∧
    (timedeltaDays ⟨2030, 1, 1, 0, 0, 0⟩ ⟨2020, 1, 1, 0, 0, 0⟩ < 0 →
      accountAge [("created_at", JVal.jstr "2030-01-01T00:00:00Z")]
        ⟨2020, 1, 1, 0, 0, 0⟩ = "0y") :=
  c10_age_nonneg [("created_at", JVal.jstr "2030-01-01T00:00:00Z")]
    ⟨2020, 1, 1, 0, 0, 0⟩ ⟨2030, 1, 1, 0, 0, 0⟩ (by decide)
